import Mathlib

/-!
# Verification of the RetroArch netplay core (`network/netplay/netplay.c`)

This file gives a shallow embedding of the state and the operations of the
netplay lockstep-synchronization engine, translated from the C source, and
proves or refutes the specification claims about it.

Conventions of the embedding:
* machine `uint32_t` values are `Nat`s; masking operations are written with
  explicit bitwise operators on `Nat`;
* the per-player arrays (`read_ptr`, `read_frame_count`, `have_real`, the
  input-word arrays) are total functions from the player index;
* the frame ring buffer is a function from slot index to `DeltaFrame`;
* network transmission is recorded as a list of `Send` values (destination
  connection index, command, payload words) instead of being performed;
* fallible steps return the `CmdResult` produced by the corresponding
  `case` of `netplay_get_cmd`, whose `ret` field is the C return value
  (`false` makes the polling loop hang up the connection).

Constants that live in `netplay_private.h` (not part of the provided
sources) are modelled from the spec where noted.
-/

/-- Modelled from the spec: `MAX_USERS`, the number of logical player
slots (player indices are 0..15). -/
def MAX_USERS : Nat := 16

/-- Modelled from the spec: `WORDS_PER_INPUT`, the number of input words
per player per frame (buttons word plus two analog words). -/
def WORDS_PER_INPUT : Nat := 3

/-- Modelled from the spec: `WORDS_PER_FRAME`, the number of payload words
of an INPUT command (`frame`, `player`, then `WORDS_PER_INPUT` state
words); consistent with `send_input_frame` in the source, which fills
`2 + WORDS_PER_FRAME` words with header plus frame, player and three
state words. -/
def WORDS_PER_FRAME : Nat := WORDS_PER_INPUT + 2

/-- The value `(uint32_t) -1`, the initial minimum in
`netplay_update_unread_ptr`. -/
def UINT32_MAX : Nat := 2 ^ 32 - 1

/-- Modelled from the spec: `NETPLAY_CMD_INPUT_BIT_SERVER`, the high bit
of the second INPUT payload word. -/
def NETPLAY_CMD_INPUT_BIT_SERVER : Nat := 2 ^ 31

/-- Modelled from the spec: `NETPLAY_CMD_MODE_BIT_PLAYING` (a flag bit of
the second MODE payload word, above the low 16 player bits). -/
def NETPLAY_CMD_MODE_BIT_PLAYING : Nat := 2 ^ 16

/-- Modelled from the spec: `NETPLAY_CMD_MODE_BIT_YOU` (a flag bit of the
second MODE payload word, above the low 16 player bits). -/
def NETPLAY_CMD_MODE_BIT_YOU : Nat := 2 ^ 17

/-- `MAX_RETRIES` from netplay.c line 41. -/
def MAX_RETRIES : Nat := 16

/-- `RETRY_MS` from netplay.c line 42 (milliseconds per blocking
`select`). -/
def RETRY_MS : Nat := 500

/-- Modelled from the spec: the `RETRO_DEVICE_ID_JOYPAD_{UP,DOWN,LEFT,RIGHT}`
bits of input word 0 (libretro assigns UP=4, DOWN=5, LEFT=6, RIGHT=7);
`netplay_simulate_input` calls this mask `keep`. -/
def KEEP_MASK : Nat := 2 ^ 4 + 2 ^ 5 + 2 ^ 6 + 2 ^ 7

/-- Connection mode, `enum rarch_netplay_connection_mode`. -/
inductive ConnMode where
  | mNONE
  | mINIT
  | mPRE_NICK
  | mPRE_PASSWORD
  | mPRE_SYNC
  | mSPECTATING
  | mPLAYING
deriving DecidableEq, Inhabited

/-- Modelled from the spec: the numeric order of the mode enum, with
`CONNECTED = SPECTATING`; "mode ≥ CONNECTED" is `connRank mode ≥ 5`. -/
def connRank : ConnMode → Nat
  | .mNONE => 0
  | .mINIT => 1
  | .mPRE_NICK => 2
  | .mPRE_PASSWORD => 3
  | .mPRE_SYNC => 4
  | .mSPECTATING => 5
  | .mPLAYING => 6

/-- Modelled from the spec: rank of `NETPLAY_CONNECTION_CONNECTED`. -/
def CONNECTED_RANK : Nat := 5

/-- One peer connection (`struct netplay_connection`), with the socket and
the packet ring buffers abstracted to liveness flags. -/
structure Conn where
  active : Bool
  fd_open : Bool
  mode : ConnMode
  player : Nat
  paused : Bool
  send_buf_alloc : Bool
  recv_buf_alloc : Bool
deriving DecidableEq, Inhabited

/-- One slot of the frame ring buffer (`struct delta_frame`). -/
structure DeltaFrame where
  used : Bool
  frame : Nat
  state : List Nat
  real_input_state : Nat → List Nat
  simulated_input_state : Nat → List Nat
  have_real : Nat → Bool
  self_state : List Nat
  have_local : Bool
  crc : Nat

/-- The session state (`netplay_t`), restricted to the fields the claims
touch.  The emulator core is an external collaborator (spec §1/§6), so
its observable interface is carried as plain data: `can_serialize` is
whether `core_serialize` currently succeeds (the transient failure
source of `netplay_delta_frame_ready`), `core_serialize_size` is what
`core_serialize_size()` currently reports (0 while unknown), and
`core_state` is the core's current serialization.  Heap-allocation
success (`calloc` in the serialization-initialization path) is carried
as the `alloc_*_ok` flags.  `decompress` is the opaque decompression
codec. -/
structure Netplay where
  is_server : Bool
  buffer_size : Nat
  buffer : Nat → DeltaFrame
  self_ptr : Nat
  self_frame_count : Nat
  other_ptr : Nat
  other_frame_count : Nat
  unread_ptr : Nat
  unread_frame_count : Nat
  server_ptr : Nat
  server_frame_count : Nat
  read_ptr : Nat → Nat
  read_frame_count : Nat → Nat
  connected_players : Nat
  self_mode : ConnMode
  self_player : Nat
  flip : Bool
  flip_frame : Nat
  is_replay : Bool
  replay_ptr : Nat
  replay_frame_count : Nat
  force_rewind : Bool
  force_send_savestate : Bool
  savestate_request_outstanding : Bool
  remote_paused : Bool
  local_paused : Bool
  state_size : Nat
  zbuffer_size : Nat
  delay_frames : Nat
  packet_buffer_size : Nat
  quirk_initialization : Bool
  quirk_no_savestates : Bool
  quirk_no_transmission : Bool
  can_serialize : Bool
  core_serialize_size : Nat
  core_state : List Nat
  alloc_states_ok : Bool
  alloc_zbuffer_ok : Bool
  alloc_sockbuf_ok : Bool
  connections : List Conn
  decompress : List Nat → List Nat

/-- `NEXT_PTR`: advance a ring pointer. -/
def NEXT_PTR (st : Netplay) (p : Nat) : Nat := (p + 1) % st.buffer_size

/-- `PREV_PTR`: retreat a ring pointer. -/
def PREV_PTR (st : Netplay) (p : Nat) : Nat :=
  (p + st.buffer_size - 1) % st.buffer_size

/-- Clear bit `k` of a `Nat` bitset (the C `x &= ~(1 << k)`). -/
def clearBit (n k : Nat) : Nat := if n.testBit k then n - 2 ^ k else n

/-- The wire commands of §4.2. -/
inductive WireCmd where
  | cACK | cNAK | cDISCONNECT | cINPUT | cNOINPUT | cFLIP_PLAYERS
  | cSPECTATE | cPLAY | cMODE | cCRC | cREQUEST_SAVESTATE
  | cLOAD_SAVESTATE | cPAUSE | cRESUME
deriving DecidableEq, Inhabited

/-- A recorded transmission: destination connection index, command, and
payload words (already in host order). -/
structure Send where
  dest : Nat
  cmd : WireCmd
  payload : List Nat
deriving DecidableEq, Inhabited

/-- The outcome of one `netplay_get_cmd` command case: the updated session
(including the updated connection list), the C return value, and the
transmissions performed. -/
structure CmdResult where
  st : Netplay
  ret : Bool
  sends : List Send

/-- `netplay_cmd_nak`: send NAK to the offending connection and report
failure (the caller then hangs the connection up). -/
def cmdNak (st : Netplay) (i : Nat) : CmdResult :=
  ⟨st, false, [⟨i, .cNAK, []⟩]⟩

/-- `netplay_send_raw_cmd_all`: send to every active, at-least-CONNECTED
connection except `excl`. -/
def send_raw_cmd_all (conns : List Conn) (excl : Nat) (cmd : WireCmd)
    (payload : List Nat) : List Send :=
  ((List.range conns.length).filter (fun j =>
      (j != excl) && (conns.getD j default).active
        && decide (CONNECTED_RANK ≤ connRank (conns.getD j default).mode))).map
    (fun j => ⟨j, cmd, payload⟩)

/-- The broadcast arm of `send_input_frame` (`only = NULL`): send an INPUT
command to every active, at-least-CONNECTED connection except `excl`,
skipping a playing connection that owns `player`. -/
def send_input_frame_all (conns : List Conn) (excl : Nat)
    (frame player : Nat) (words : List Nat) : List Send :=
  ((List.range conns.length).filter (fun j =>
      (j != excl) && (conns.getD j default).active
        && decide (CONNECTED_RANK ≤ connRank (conns.getD j default).mode)
        && ((conns.getD j default).mode != .mPLAYING
            || (conns.getD j default).player != player))).map
    (fun j => ⟨j, .cINPUT, frame :: player :: words⟩)

/-- Modelled from the spec: `netplay_delta_frame_ready` (declared in
`netplay_private.h`, defined outside the provided sources).  Per §4.3 it
lazily (re)initializes the slot to `used := true`, `frame := frame_no`,
`have_real[*] := false`, `have_local := false`, saving the core state into
it, and fails only if the core cannot currently serialize. -/
def netplay_delta_frame_ready (st : Netplay) (ptr frame_no : Nat) :
    Option Netplay :=
  if (st.buffer ptr).used ∧ (st.buffer ptr).frame = frame_no then some st
  else if st.can_serialize then
    some { st with buffer := fun ix => if ix = ptr then
      { used := true
        frame := frame_no
        state := st.core_state
        real_input_state := fun _ => List.replicate WORDS_PER_INPUT 0
        simulated_input_state := fun _ => List.replicate WORDS_PER_INPUT 0
        have_real := fun _ => false
        self_state := List.replicate WORDS_PER_INPUT 0
        have_local := false
        crc := 0 } else st.buffer ix }
  else none

/-- Player resolution of the INPUT case: the server ignores the wire value
and uses the sender's assigned player (rejecting non-playing senders); a
client reads the wire value with `NETPLAY_CMD_INPUT_BIT_SERVER` masked
off. -/
def resolve_input_player (st : Netplay) (c : Conn) (w1 : Nat) : Option Nat :=
  if st.is_server then
    if c.mode ≠ ConnMode.mPLAYING then none else some c.player
  else
    some (w1 &&& (UINT32_MAX ^^^ NETPLAY_CMD_INPUT_BIT_SERVER))

/-- `netplay_flip_port` (netplay.c lines 1364–1375). -/
def netplay_flip_port (st : Netplay) : Bool :=
  let frame := st.self_frame_count
  if st.flip_frame = 0 then false
  else
    let frame := if st.is_replay then st.replay_frame_count else frame
    Bool.xor st.flip (decide (frame < st.flip_frame))

/-- `netplay_cmd_request_savestate` (netplay.c lines 501–512): returns the
updated session, the C return value, and the transmissions. -/
def netplay_cmd_request_savestate (st : Netplay) : Netplay × Bool × List Send :=
  if st.connections.length = 0 ∨
     (st.connections.getD 0 default).active = false ∨
     connRank (st.connections.getD 0 default).mode < CONNECTED_RANK then
    (st, false, [])
  else if st.savestate_request_outstanding then
    (st, true, [])
  else
    ({ st with savestate_request_outstanding := true }, true,
      [⟨0, .cREQUEST_SAVESTATE, []⟩])

/-- One step of the minimum scan of `netplay_update_unread_ptr`: the
accumulator is `(new_unread_ptr, new_unread_frame_count)`. -/
def unreadStep (st : Netplay) (acc : Nat × Nat) (player : Nat) : Nat × Nat :=
  if st.connected_players.testBit player ∧ st.read_frame_count player < acc.2
  then (st.read_ptr player, st.read_frame_count player)
  else acc

/-- `netplay_update_unread_ptr` (netplay.c lines 290–324). -/
def netplay_update_unread_ptr (st : Netplay) : Netplay :=
  if st.is_server ∧ st.connected_players = 0 then
    { st with unread_ptr := st.self_ptr,
              unread_frame_count := st.self_frame_count }
  else
    let acc := (List.range MAX_USERS).foldl (unreadStep st) (0, UINT32_MAX)
    let acc := if ¬ st.is_server ∧ st.server_frame_count < acc.2
               then (st.server_ptr, st.server_frame_count) else acc
    { st with unread_ptr := acc.1, unread_frame_count := acc.2 }

/-- `netplay_hangup` (netplay.c lines 244–283) on the connection at index
`i`: closes the socket, deactivates the connection and frees its packet
buffers; a client then drops to mode NONE with no connected players, a
server removes a playing peer's slot and broadcasts the demotion MODE
command.  Inactive connections are left untouched. -/
def netplay_hangup (st : Netplay) (i : Nat) : Netplay × List Send :=
  let c := st.connections.getD i default
  if c.active = false then (st, [])
  else
    let c' := { c with active := false, fd_open := false,
                       send_buf_alloc := false, recv_buf_alloc := false }
    let st1 := { st with connections := st.connections.set i c' }
    if st.is_server = false then
      ({ st1 with self_mode := .mNONE, connected_players := 0 }, [])
    else if c.mode = .mPLAYING then
      let st2 := { st1 with
        connected_players := clearBit st.connected_players c.player }
      (st2, send_raw_cmd_all st2.connections i .cMODE
              [st.read_frame_count c.player, c.player])
    else (st1, [])

/-- The `NETPLAY_CMD_INPUT` case of `netplay_get_cmd` (netplay.c lines
610–686), for the connection at index `i`, with the payload words already
byte-order converted. -/
def handle_input (st : Netplay) (i : Nat) (cmd_size : Nat)
    (payload : List Nat) : CmdResult :=
  let c := st.connections.getD i default
  if cmd_size ≠ WORDS_PER_FRAME * 4 then cmdNak st i
  else
    let w0 := payload.getD 0 0
    let w1 := payload.getD 1 0
    match resolve_input_player st c w1 with
    | none => cmdNak st i
    | some player =>
      if MAX_USERS ≤ player ∨ st.connected_players.testBit player = false then
        cmdNak st i
      else if w0 < st.read_frame_count player then
        ⟨st, true, []⟩
      else if st.read_frame_count player < w0 then
        cmdNak st i
      else
        match netplay_delta_frame_ready st (st.read_ptr player)
                (st.read_frame_count player) with
        | none => cmdNak st i
        | some st1 =>
          let words := (payload.drop 2).take WORDS_PER_INPUT
          let d := st1.buffer (st.read_ptr player)
          let d' := { d with
            real_input_state := fun q =>
              if q = player then words else d.real_input_state q,
            have_real := fun q => if q = player then true else d.have_real q }
          let st2 := { st1 with
            buffer := fun ix =>
              if ix = st.read_ptr player then d' else st1.buffer ix,
            read_ptr := fun q =>
              if q = player then NEXT_PTR st (st.read_ptr player)
              else st.read_ptr q,
            read_frame_count := fun q =>
              if q = player then st.read_frame_count player + 1
              else st.read_frame_count q }
          let relay :=
            if st.is_server ∧ d'.frame ≤ st.self_frame_count then
              send_input_frame_all st2.connections i w0 player words
            else []
          let st3 :=
            if st.is_server = false ∧
               w1 &&& NETPLAY_CMD_INPUT_BIT_SERVER ≠ 0 then
              { st2 with server_ptr := st2.read_ptr player,
                         server_frame_count := st2.read_frame_count player }
            else st2
          ⟨st3, true, relay⟩

/-- The `NETPLAY_CMD_SPECTATE` case of `netplay_get_cmd` (netplay.c lines
746–781), for the sending connection at index `i`. -/
def handle_spectate (st : Netplay) (i : Nat) : CmdResult :=
  let c := st.connections.getD i default
  if st.is_server = false then cmdNak st i
  else if c.mode = .mPLAYING then
    let p0 := st.read_frame_count c.player
    let c' := { c with mode := .mSPECTATING }
    let st1 := { st with
      connections := st.connections.set i c',
      connected_players := clearBit st.connected_players c.player }
    ⟨st1, true,
      send_raw_cmd_all st1.connections i .cMODE [p0, c.player]
        ++ [⟨i, .cMODE, [p0, NETPLAY_CMD_MODE_BIT_YOU ||| c.player]⟩]⟩
  else
    ⟨st, true, [⟨i, .cMODE, [0, NETPLAY_CMD_MODE_BIT_YOU ||| c.player]⟩]⟩

/-- The opaque emulator step `core_run()` as it affects the core-visible
data carried in the session: the core's serialized state, the reported
serialization size, and whether serialization currently succeeds.  The
core itself is an external collaborator (spec §1), so its stepping
behavior is a parameter of the functions that call it. -/
def CoreStep : Type := List Nat × Nat × Bool → List Nat × Nat × Bool

/-- Apply one `core_run()` to the session's core-visible data. -/
def apply_core_run (coreRun : CoreStep) (st : Netplay) : Netplay :=
  let c := coreRun (st.core_state, st.core_serialize_size, st.can_serialize)
  { st with core_state := c.1, core_serialize_size := c.2.1,
            can_serialize := c.2.2 }

/-- `netplay_init_serialization` (netplay.c lines 1559–1595): read the
core's serialization size, allocate a zeroed state buffer for every ring
slot, and allocate the compression scratch buffer of twice the state
size.  The external `calloc` outcomes are the `alloc_states_ok` /
`alloc_zbuffer_ok` flags (failure sets the NO_SAVESTATES resp.
NO_TRANSMISSION quirk as in the C). -/
def netplay_init_serialization (st : Netplay) : Netplay × Bool :=
  if st.state_size ≠ 0 then (st, true)
  else if st.core_serialize_size = 0 then (st, false)
  else
    let st1 := { st with state_size := st.core_serialize_size }
    if st.alloc_states_ok = false then
      ({ st1 with quirk_no_savestates := true }, false)
    else
      let st2 := { st1 with buffer := fun ix =>
        (if ix < st.buffer_size then
          { (st1.buffer ix) with
              state := List.replicate st.core_serialize_size 0 }
         else st1.buffer ix) }
      if st.alloc_zbuffer_ok = false then
        ({ st2 with quirk_no_transmission := true, zbuffer_size := 0 }, false)
      else
        ({ st2 with zbuffer_size := st.core_serialize_size * 2 }, true)

/-- `netplay_init_socket_buffers` (netplay.c lines 1467–1501): size the
per-connection packet buffers for one savestate plus `delay_frames` of
input commands with headers, and (re)initialize the buffers of every
active connection; allocation success is the external `alloc_sockbuf_ok`
flag. -/
def netplay_init_socket_buffers (st : Netplay) : Netplay × Bool :=
  let sz := st.zbuffer_size + st.delay_frames * WORDS_PER_FRAME
              + (st.delay_frames + 1) * 3
  ({ st with packet_buffer_size := sz,
             connections := st.connections.map (fun c =>
               (if c.active then
                  { c with send_buf_alloc := true, recv_buf_alloc := true }
                else c)) },
   st.alloc_sockbuf_ok)

/-- `netplay_try_init_serialization` (netplay.c lines 1510–1533): run
`netplay_init_serialization`, check that the core can actually save (a
successful `core_serialize` writes the core state into the slot at
`self_ptr`), clear the INITIALIZATION quirk, and size the socket
buffers. -/
def netplay_try_init_serialization (st : Netplay) : Netplay × Bool :=
  if st.state_size ≠ 0 then (st, true)
  else
    let r := netplay_init_serialization st
    if r.2 = false then (r.1, false)
    else if r.1.can_serialize = false then (r.1, false)
    else
      netplay_init_socket_buffers
        { r.1 with
            buffer := fun ix =>
              (if ix = r.1.self_ptr then
                { (r.1.buffer ix) with state := r.1.core_state }
               else r.1.buffer ix),
            quirk_initialization := false }

/-- The retry loop of `netplay_wait_and_init_serialization`: attempt the
serialization setup, and on failure step the core (`core_run`) and try
again, up to the given number of frames. -/
def wait_init_loop (coreRun : CoreStep) : Nat → Netplay → Netplay × Bool
  | 0, st => (st, false)
  | n + 1, st =>
    let r := netplay_try_init_serialization st
    if r.2 then r
    else wait_init_loop coreRun n (apply_core_run coreRun r.1)

/-- `netplay_wait_and_init_serialization` (netplay.c lines 1535–1557):
immediately true when the state size is already known; otherwise spin a
maximum of 60 frames, alternating serialization attempts with
`core_run()`. -/
def netplay_wait_and_init_serialization (coreRun : CoreStep)
    (st : Netplay) : Netplay × Bool :=
  if st.state_size ≠ 0 then (st, true)
  else wait_init_loop coreRun 60 st

/-- The INITIALIZATION-quirk preamble of the `NETPLAY_CMD_LOAD_SAVESTATE`
case (netplay.c lines 1064–1078); the Boolean result of the wait is
discarded, as in the C. -/
def load_savestate_init (coreRun : CoreStep) (st : Netplay) : Netplay :=
  if st.quirk_initialization then
    if st.is_replay = false then
      { (netplay_wait_and_init_serialization coreRun
          { st with is_replay := true, replay_ptr := st.self_ptr,
                    replay_frame_count := st.self_frame_count }).1
        with is_replay := false }
    else (netplay_wait_and_init_serialization coreRun st).1
  else st

/-- The `NETPLAY_CMD_LOAD_SAVESTATE` case of `netplay_get_cmd` (netplay.c
lines 1056–1170), for the sending connection at index `i`; `frame` and
`isize` are the two leading payload words and `zpayload` the compressed
body (so `cmd_size = 8 + zpayload.length` on the wire); `coreRun` is the
external emulator step used by the quirk preamble. -/
def handle_load_savestate (coreRun : CoreStep) (st0 : Netplay) (i : Nat)
    (cmd_size : Nat) (frame isize : Nat) (zpayload : List Nat) : CmdResult :=
  let st := load_savestate_init coreRun st0
  let c := st.connections.getD i default
  if c.mode ≠ ConnMode.mPLAYING then cmdNak st i
  else if st.zbuffer_size + 2 * 4 < cmd_size then cmdNak st i
  else if frame ≠ st.read_frame_count c.player then cmdNak st i
  else if isize ≠ st.state_size then cmdNak st i
  else
    let rp := st.read_ptr c.player
    let st1 := { st with buffer := fun ix =>
      (if ix = rp then { (st.buffer ix) with state := st.decompress zpayload }
       else st.buffer ix) }
    let st2 :=
      if st.self_frame_count < frame then
        { st1 with self_ptr := PREV_PTR st rp, self_frame_count := frame - 1 }
      else st1
    let st3 := { st2 with
      read_ptr := fun q =>
        if st.connected_players.testBit q ∧ st.read_frame_count q < frame
        then rp else st.read_ptr q,
      read_frame_count := fun q =>
        if st.connected_players.testBit q ∧ st.read_frame_count q < frame
        then frame else st.read_frame_count q,
      force_rewind := true,
      savestate_request_outstanding := false,
      other_ptr := rp,
      other_frame_count := frame }
    ⟨st3, true, []⟩

/-- The per-player update of `netplay_simulate_input` (netplay.c lines
1325–1355): on resimulation only word 0 changes, keeping the
direction bits (`keep`) of the already-simulated word and taking the
remaining bits from the previous real input; on first simulation all
`WORDS_PER_INPUT` words are copied from the previous real input. -/
def simulate_player_words (st : Netplay) (simframe : DeltaFrame)
    (player : Nat) (resim : Bool) : List Nat :=
  let pframe := st.buffer (PREV_PTR st (st.read_ptr player))
  if resim then
    let sim0 := (simframe.simulated_input_state player).getD 0 0
    let real0 := (pframe.real_input_state player).getD 0 0
    ((sim0 &&& KEEP_MASK) ||| (real0 &&& (UINT32_MAX ^^^ KEEP_MASK)))
      :: (simframe.simulated_input_state player).drop 1
  else
    (pframe.real_input_state player).take WORDS_PER_INPUT

/-- `netplay_simulate_input` (netplay.c lines 1309–1357): fill in
simulated input at slot `sim_ptr` for every connected player lacking real
input there. -/
def netplay_simulate_input (st : Netplay) (sim_ptr : Nat) (resim : Bool) :
    Netplay :=
  let simframe := st.buffer sim_ptr
  let simframe' := { simframe with
    simulated_input_state := fun p =>
      if p < MAX_USERS ∧ st.connected_players.testBit p = true ∧
         simframe.have_real p = false
      then simulate_player_words st simframe p resim
      else simframe.simulated_input_state p }
  { st with buffer := fun ix =>
      if ix = sim_ptr then simframe' else st.buffer ix }

/-- One iteration's environment for the blocking poll loop of
`netplay_poll_net_input`: whether the drain over the connections parsed
any command (`had_input`, which zeroes the stall counter), whether the
`delta_frame_ready` guards passed (`frame_ready`), the value of
`unread_frame_count` after the drain, the value of `remote_paused` after
the drain, and whether `select` succeeded. -/
structure PollEnv where
  had_input : Bool
  frame_ready : Bool
  unread_after : Nat
  remote_paused : Bool
  select_ok : Bool
deriving DecidableEq, Inhabited

/-- The `block = true` loop of `netplay_poll_net_input` (netplay.c lines
1237–1295), driven by a list of per-iteration environments (the list's
exhaustion, `none`, means the loop was still running): the stall counter
`tc` is incremented each iteration and reset by any parsed command;
`some 0` is a normal break, `some (-1)` the fatal error. -/
def netplay_poll_net_input_block (sfc : Nat) : Nat → List PollEnv → Option Int
  | _, [] => none
  | tc, e :: rest =>
    let tc1 := tc + 1
    if e.frame_ready = false then some 0
    else
      let tc2 := if e.had_input then 0 else tc1
      if sfc < e.unread_after then some 0
      else if e.had_input = false then
        if e.select_ok = false then some (-1)
        else if MAX_RETRIES ≤ tc2 ∧ e.remote_paused = false then some (-1)
        else netplay_poll_net_input_block sfc tc2 rest
      else netplay_poll_net_input_block sfc tc2 rest

/-- An unused all-zero frame slot, for building concrete states. -/
def emptyFrame : DeltaFrame where
  used := false
  frame := 0
  state := []
  real_input_state := fun _ => [0, 0, 0]
  simulated_input_state := fun _ => [0, 0, 0]
  have_real := fun _ => false
  self_state := [0, 0, 0]
  have_local := false
  crc := 0

/-- A baseline session value from which the concrete test states below are
built by field updates. -/
def baseSt : Netplay where
  is_server := true
  buffer_size := 3
  buffer := fun _ => emptyFrame
  self_ptr := 0
  self_frame_count := 0
  other_ptr := 0
  other_frame_count := 0
  unread_ptr := 0
  unread_frame_count := 0
  server_ptr := 0
  server_frame_count := 0
  read_ptr := fun _ => 0
  read_frame_count := fun _ => 0
  connected_players := 0
  self_mode := .mPLAYING
  self_player := 0
  flip := false
  flip_frame := 0
  is_replay := false
  replay_ptr := 0
  replay_frame_count := 0
  force_rewind := false
  force_send_savestate := false
  savestate_request_outstanding := false
  remote_paused := false
  local_paused := false
  state_size := 4
  zbuffer_size := 8
  delay_frames := 1
  packet_buffer_size := 0
  quirk_initialization := false
  quirk_no_savestates := false
  quirk_no_transmission := false
  can_serialize := true
  core_serialize_size := 4
  core_state := []
  alloc_states_ok := true
  alloc_zbuffer_ok := true
  alloc_sockbuf_ok := true
  connections := []
  decompress := fun l => l

/-- An active spectating connection, for concrete states. -/
def specConn : Conn where
  active := true
  fd_open := true
  mode := .mSPECTATING
  player := 0
  paused := false
  send_buf_alloc := true
  recv_buf_alloc := true

/-- An active playing connection owning `p`, for concrete states. -/
def playConn (p : Nat) : Conn :=
  { specConn with mode := .mPLAYING, player := p }

/-- Concrete state for the C9 witness: mid-replay with a pending flip. -/
def c9St : Netplay :=
  { baseSt with flip_frame := 5, is_replay := true, replay_frame_count := 3,
                self_frame_count := 9 }

/-- C9: `netplay_flip_port` returns `false` whenever `flip_frame` is 0;
otherwise it returns `flip XOR (f < flip_frame)` where `f` is
`replay_frame_count` during a replay and `self_frame_count` otherwise. -/
theorem flip_port_replay_shadow (st : Netplay) :
    (st.flip_frame = 0 → netplay_flip_port st = false) ∧
    (st.flip_frame ≠ 0 →
      netplay_flip_port st =
        Bool.xor st.flip
          (decide ((if st.is_replay then st.replay_frame_count
                    else st.self_frame_count) < st.flip_frame))) := by
  constructor <;> intro h <;> simp [netplay_flip_port, h]

/-- Witness for C9 at `flip_frame = 0` and at the replay state `c9St`. -/
theorem flip_port_replay_shadow_witness :
    netplay_flip_port baseSt = false ∧
    (c9St.flip_frame ≠ 0 ∧
      netplay_flip_port c9St =
        Bool.xor c9St.flip
          (decide ((if c9St.is_replay then c9St.replay_frame_count
                    else c9St.self_frame_count) < c9St.flip_frame))) :=
  ⟨(flip_port_replay_shadow baseSt).1 rfl,
   by decide, (flip_port_replay_shadow c9St).2 (by decide)⟩

/-- Concrete state for the C10 counterexample: the savestate-request flag
is set but connection 0 has gone inactive. -/
def c10St : Netplay :=
  { baseSt with is_server := false,
                savestate_request_outstanding := true,
                connections := [{ specConn with active := false }] }

/-- C10 counterexample: with `savestate_request_outstanding` already set
but connection 0 inactive, `netplay_cmd_request_savestate` returns
`false`, not `true` as the claim states (the active check precedes the
flag check). -/
theorem request_savestate_claim_cex :
    c10St.savestate_request_outstanding = true ∧
    (netplay_cmd_request_savestate c10St).2.1 = false ∧
    (netplay_cmd_request_savestate c10St).2.2 = [] :=
  ⟨rfl, rfl, rfl⟩

/-- `netplay_delta_frame_ready` only touches the ring buffer. -/
lemma delta_frame_ready_fields (st : Netplay) (ptr fn : Nat) (st' : Netplay)
    (h : netplay_delta_frame_ready st ptr fn = some st') :
    st'.savestate_request_outstanding = st.savestate_request_outstanding ∧
    st'.connections = st.connections ∧
    st'.read_ptr = st.read_ptr ∧
    st'.read_frame_count = st.read_frame_count ∧
    st'.self_frame_count = st.self_frame_count ∧
    st'.is_server = st.is_server ∧
    st'.server_ptr = st.server_ptr ∧
    st'.server_frame_count = st.server_frame_count ∧
    st'.buffer_size = st.buffer_size := by
  unfold netplay_delta_frame_ready at h
  repeat' split at h
  all_goals first
    | exact Option.noConfusion h
    | (have he := Option.some.inj h; subst he;
       exact ⟨rfl, rfl, rfl, rfl, rfl, rfl, rfl, rfl, rfl⟩)

/-- `handle_input` never changes the savestate-request flag. -/
lemma handle_input_flag (st : Netplay) (i cs : Nat) (payload : List Nat) :
    (handle_input st i cs payload).st.savestate_request_outstanding
      = st.savestate_request_outstanding := by
  unfold handle_input cmdNak
  dsimp only
  split
  · rfl
  split
  · rfl
  split
  · rfl
  split
  · rfl
  split
  · rfl
  split
  · rfl
  rename_i st1 hready
  have hf := (delta_frame_ready_fields _ _ _ _ hready).1
  dsimp only
  split <;> exact hf

/-- Concrete accepting state for the C10 witness: a client with an active
playing server connection. -/
def c10okSt : Netplay :=
  { baseSt with is_server := false, connections := [playConn 0],
                connected_players := 1, state_size := 4, zbuffer_size := 8 }

/-- C10 (amended): when connection 0 exists, is active and at least
CONNECTED, `netplay_cmd_request_savestate` returns true without
transmitting or changing anything if the flag is already set, and
otherwise sets the flag and transmits REQUEST_SAVESTATE to connection 0
only; when connection 0 is missing, inactive or pre-CONNECTED it returns
false without transmitting or touching the flag.  Among the modelled
operations the set flag is preserved by INPUT, SPECTATE, hangup,
unread-pointer update and input simulation, and is cleared by
LOAD_SAVESTATE exactly when that command is accepted. -/
theorem request_savestate_amended (st : Netplay) (i cs f isz sp : Nat)
    (zp : List Nat) (resim : Bool) (coreRun : CoreStep) :
    (st.connections.length ≠ 0 →
     (st.connections.getD 0 default).active = true →
     CONNECTED_RANK ≤ connRank (st.connections.getD 0 default).mode →
      (st.savestate_request_outstanding = true →
        netplay_cmd_request_savestate st = (st, true, [])) ∧
      (st.savestate_request_outstanding = false →
        netplay_cmd_request_savestate st =
          ({ st with savestate_request_outstanding := true }, true,
            [⟨0, .cREQUEST_SAVESTATE, []⟩]))) ∧
    (st.connections.length = 0 ∨
     (st.connections.getD 0 default).active = false ∨
     connRank (st.connections.getD 0 default).mode < CONNECTED_RANK →
      netplay_cmd_request_savestate st = (st, false, [])) ∧
    (st.savestate_request_outstanding = true →
      (handle_input st i cs zp).st.savestate_request_outstanding = true ∧
      (handle_spectate st i).st.savestate_request_outstanding = true ∧
      (netplay_hangup st i).1.savestate_request_outstanding = true ∧
      (netplay_update_unread_ptr st).savestate_request_outstanding = true ∧
      (netplay_simulate_input st sp resim).savestate_request_outstanding
        = true) ∧
    (st.quirk_initialization = false → st.savestate_request_outstanding = true →
      ((handle_load_savestate coreRun st i cs f isz zp).st.savestate_request_outstanding
          = false
        ↔ (handle_load_savestate coreRun st i cs f isz zp).ret = true)) := by
  refine ⟨?_, ?_, ?_, ?_⟩
  · intro h0 h1 h2
    have h1' : (st.connections[0]?.getD default).active = true := by
      simpa [List.getD] using h1
    have h2' : CONNECTED_RANK ≤ connRank (st.connections[0]?.getD default).mode := by
      simpa [List.getD] using h2
    constructor <;> intro hflag <;>
      simp [netplay_cmd_request_savestate, h0, h1, h2, h1', h2', hflag,
            Nat.not_lt.2 h2, Nat.not_lt.2 h2']
  · intro h
    unfold netplay_cmd_request_savestate
    rw [if_pos h]
  · intro hflag
    refine ⟨by rw [handle_input_flag]; exact hflag, ?_, ?_, ?_, ?_⟩
    · unfold handle_spectate cmdNak
      dsimp only
      split
      · exact hflag
      split <;> exact hflag
    · unfold netplay_hangup
      dsimp only
      split
      · exact hflag
      split
      · exact hflag
      split <;> exact hflag
    · unfold netplay_update_unread_ptr
      split
      · exact hflag
      · exact hflag
    · exact hflag
  · intro hq hflag
    unfold handle_load_savestate
    have hinit : load_savestate_init coreRun st = st := by
      unfold load_savestate_init
      rw [if_neg (by simp [hq])]
    rw [hinit]
    dsimp only
    split
    · simp [cmdNak, hflag]
    split
    · simp [cmdNak, hflag]
    split
    · simp [cmdNak, hflag]
    split
    · simp [cmdNak, hflag]
    exact ⟨fun _ => rfl, fun _ => rfl⟩

/-- Witness for C10 (amended) at concrete client states: a fresh request
transmits and sets the flag; with the flag set, INPUT at a wrong size, a
hangup and the unread update all preserve it, and an accepted
LOAD_SAVESTATE clears it. -/
theorem request_savestate_amended_witness :
    netplay_cmd_request_savestate c10okSt =
      (({ c10okSt with savestate_request_outstanding := true }), true,
        [⟨0, .cREQUEST_SAVESTATE, []⟩]) ∧
    netplay_cmd_request_savestate c10St = (c10St, false, []) ∧
    ((handle_input c10St 0 7 []).st.savestate_request_outstanding = true ∧
     (handle_spectate c10St 0).st.savestate_request_outstanding = true ∧
     (netplay_hangup c10St 0).1.savestate_request_outstanding = true ∧
     (netplay_update_unread_ptr c10St).savestate_request_outstanding = true ∧
     (netplay_simulate_input c10St 0 false).savestate_request_outstanding
       = true) ∧
    ((handle_load_savestate (fun c => c) c10St 0 12 0 0 [9]).st.savestate_request_outstanding
        = false
      ↔ (handle_load_savestate (fun c => c) c10St 0 12 0 0 [9]).ret = true) :=
  ⟨((request_savestate_amended c10okSt 0 7 0 0 0 [] false (fun c => c)).1
      (by decide) (by decide) (by decide)).2 rfl,
   (request_savestate_amended c10St 0 7 0 0 0 [] false (fun c => c)).2.1
      (Or.inr (Or.inl rfl)),
   (request_savestate_amended c10St 0 7 0 0 0 [] false (fun c => c)).2.2.1 rfl,
   (request_savestate_amended c10St 0 12 0 0 0 [9] false (fun c => c)).2.2.2 rfl rfl⟩

/-- The minimum scan of `netplay_update_unread_ptr` never increases the
running minimum. -/
lemma unread_foldl_le (st : Netplay) (l : List Nat) :
    ∀ acc : Nat × Nat, (l.foldl (unreadStep st) acc).2 ≤ acc.2 := by
  induction l with
  | nil => intro acc; exact Nat.le_refl _
  | cons q t ih =>
    intro acc
    refine Nat.le_trans (ih (unreadStep st acc q)) ?_
    unfold unreadStep
    split
    · rename_i h; exact Nat.le_of_lt h.2
    · exact Nat.le_refl _

/-- The minimum scan ends at or below the frame count of every connected
player it visited. -/
lemma unread_foldl_le_mem (st : Netplay) (l : List Nat) :
    ∀ (acc : Nat × Nat) (p : Nat), p ∈ l →
      st.connected_players.testBit p = true →
      (l.foldl (unreadStep st) acc).2 ≤ st.read_frame_count p := by
  induction l with
  | nil => intro _ p hp; exact absurd hp (List.not_mem_nil p)
  | cons q t ih =>
    intro acc p hp hbit
    rcases List.mem_cons.1 hp with rfl | hp'
    · refine Nat.le_trans (unread_foldl_le st t (unreadStep st acc p)) ?_
      unfold unreadStep
      split
      · exact Nat.le_refl _
      · rename_i h
        exact Nat.le_of_not_lt fun hlt => h ⟨hbit, hlt⟩
    · exact ih (unreadStep st acc q) p hp' hbit

/-- The minimum scan either leaves the accumulator alone or ends at the
read pointer / frame count of some connected player it visited. -/
lemma unread_foldl_achieve (st : Netplay) (l : List Nat) :
    ∀ acc : Nat × Nat,
      l.foldl (unreadStep st) acc = acc ∨
      ∃ p ∈ l, st.connected_players.testBit p = true ∧
        l.foldl (unreadStep st) acc =
          (st.read_ptr p, st.read_frame_count p) := by
  induction l with
  | nil => intro acc; exact Or.inl rfl
  | cons q t ih =>
    intro acc
    have hstep : unreadStep st acc q = acc ∨
        (st.connected_players.testBit q = true ∧
         unreadStep st acc q = (st.read_ptr q, st.read_frame_count q)) := by
      unfold unreadStep
      split
      · rename_i h; exact Or.inr ⟨h.1, rfl⟩
      · exact Or.inl rfl
    rcases ih (unreadStep st acc q) with heq | ⟨p, hp, hbit, heq⟩
    · rcases hstep with hs | ⟨hbit, hs⟩
      · exact Or.inl (by rw [List.foldl_cons]; exact heq.trans hs)
      · exact Or.inr ⟨q, List.mem_cons_self q t, hbit,
          by rw [List.foldl_cons]; exact heq.trans hs⟩
    · exact Or.inr ⟨p, List.mem_cons_of_mem q hp, hbit,
        by rw [List.foldl_cons]; exact heq⟩

/-- Concrete state for the C5 counterexample: a client with one connected
player whose frame count (10) exceeds the server's (5). -/
def c5St : Netplay :=
  { baseSt with is_server := false, connected_players := 1,
                read_frame_count := fun _ => 10, read_ptr := fun _ => 2,
                server_frame_count := 5, server_ptr := 1,
                connections := [playConn 0] }

/-- C5 counterexample: on a client with connected player 0 at
`read_frame_count 10` and `server_frame_count 5`,
`netplay_update_unread_ptr` sets `unread_frame_count` to 5, not to the
minimum (10) over connected players as the claim states — the
server-frame clamp applies on every client, not only on clients with no
connected players. -/
theorem update_unread_claim_cex :
    c5St.is_server = false ∧ c5St.connected_players = 1 ∧
    c5St.read_frame_count 0 = 10 ∧ c5St.server_frame_count = 5 ∧
    (netplay_update_unread_ptr c5St).unread_frame_count = 5 ∧
    (netplay_update_unread_ptr c5St).unread_frame_count
      ≠ c5St.read_frame_count 0 := by
  refine ⟨rfl, rfl, rfl, rfl, ?_, ?_⟩ <;> decide

/-- C5 (amended): after `netplay_update_unread_ptr`, a server with no
connected players copies `self_ptr`/`self_frame_count`; a server with
connected players has `unread_frame_count` equal to the minimum over
connected players of `read_frame_count` (or the untouched initial
`(0, UINT32_MAX)` accumulator when no player below `MAX_USERS` is
connected), with `unread_ptr` the corresponding read pointer; a client
takes the minimum of that same scan *and* `server_frame_count` — the
server clamp applies to every client, not only those with no connected
players. -/
theorem update_unread_amended (st : Netplay) :
    (st.is_server = true → st.connected_players = 0 →
      (netplay_update_unread_ptr st).unread_ptr = st.self_ptr ∧
      (netplay_update_unread_ptr st).unread_frame_count
        = st.self_frame_count) ∧
    (st.is_server = true → st.connected_players ≠ 0 →
      (∀ p, p < MAX_USERS → st.connected_players.testBit p = true →
        (netplay_update_unread_ptr st).unread_frame_count
          ≤ st.read_frame_count p) ∧
      (((netplay_update_unread_ptr st).unread_ptr = 0 ∧
        (netplay_update_unread_ptr st).unread_frame_count = UINT32_MAX) ∨
       ∃ p, p < MAX_USERS ∧ st.connected_players.testBit p = true ∧
         (netplay_update_unread_ptr st).unread_ptr = st.read_ptr p ∧
         (netplay_update_unread_ptr st).unread_frame_count
           = st.read_frame_count p)) ∧
    (st.is_server = false → st.server_frame_count < UINT32_MAX →
      (netplay_update_unread_ptr st).unread_frame_count
        ≤ st.server_frame_count ∧
      (∀ p, p < MAX_USERS → st.connected_players.testBit p = true →
        (netplay_update_unread_ptr st).unread_frame_count
          ≤ st.read_frame_count p) ∧
      (((netplay_update_unread_ptr st).unread_ptr = st.server_ptr ∧
        (netplay_update_unread_ptr st).unread_frame_count
          = st.server_frame_count) ∨
       ∃ p, p < MAX_USERS ∧ st.connected_players.testBit p = true ∧
         (netplay_update_unread_ptr st).unread_ptr = st.read_ptr p ∧
         (netplay_update_unread_ptr st).unread_frame_count
           = st.read_frame_count p)) := by
  refine ⟨?_, ?_, ?_⟩
  · intro hs h0
    unfold netplay_update_unread_ptr
    rw [if_pos ⟨hs, h0⟩]
    exact ⟨rfl, rfl⟩
  · intro hs h0
    unfold netplay_update_unread_ptr
    rw [if_neg (by simp [h0])]
    dsimp only
    rw [if_neg (by simp [hs])]
    refine ⟨fun p hp hbit =>
      unread_foldl_le_mem st _ _ p (List.mem_range.mpr hp) hbit, ?_⟩
    rcases unread_foldl_achieve st (List.range MAX_USERS) (0, UINT32_MAX)
      with heq | ⟨p, hp, hbit, heq⟩
    · exact Or.inl ⟨by rw [heq], by rw [heq]⟩
    · exact Or.inr ⟨p, List.mem_range.mp hp, hbit, by rw [heq], by rw [heq]⟩
  · intro hs hmax
    unfold netplay_update_unread_ptr
    rw [if_neg (by simp [hs])]
    dsimp only
    by_cases hlt : st.server_frame_count
        < ((List.range MAX_USERS).foldl (unreadStep st) (0, UINT32_MAX)).2
    · rw [if_pos ⟨by simp [hs], hlt⟩]
      refine ⟨Nat.le_refl _, fun p hp hbit => ?_, Or.inl ⟨rfl, rfl⟩⟩
      exact Nat.le_of_lt (Nat.lt_of_lt_of_le hlt
        (unread_foldl_le_mem st _ _ p (List.mem_range.mpr hp) hbit))
    · rw [if_neg (by simp [hs, hlt])]
      refine ⟨Nat.le_of_not_lt hlt,
        fun p hp hbit =>
          unread_foldl_le_mem st _ _ p (List.mem_range.mpr hp) hbit, ?_⟩
      rcases unread_foldl_achieve st (List.range MAX_USERS) (0, UINT32_MAX)
        with heq | ⟨p, hp, hbit, heq⟩
      · exact absurd (Nat.le_of_not_lt hlt)
          (by rw [heq]; exact Nat.not_le_of_lt hmax)
      · exact Or.inr ⟨p, List.mem_range.mp hp, hbit, by rw [heq], by rw [heq]⟩

/-- Witness for C5 (amended) at a server with no connected players and at
the client state `c5St`. -/
theorem update_unread_amended_witness :
    ((netplay_update_unread_ptr baseSt).unread_ptr = baseSt.self_ptr ∧
     (netplay_update_unread_ptr baseSt).unread_frame_count
       = baseSt.self_frame_count) ∧
    ((netplay_update_unread_ptr c5St).unread_frame_count
       ≤ c5St.server_frame_count ∧
     (∀ p, p < MAX_USERS → c5St.connected_players.testBit p = true →
       (netplay_update_unread_ptr c5St).unread_frame_count
         ≤ c5St.read_frame_count p) ∧
     (((netplay_update_unread_ptr c5St).unread_ptr = c5St.server_ptr ∧
       (netplay_update_unread_ptr c5St).unread_frame_count
         = c5St.server_frame_count) ∨
      ∃ p, p < MAX_USERS ∧ c5St.connected_players.testBit p = true ∧
        (netplay_update_unread_ptr c5St).unread_ptr = c5St.read_ptr p ∧
        (netplay_update_unread_ptr c5St).unread_frame_count
          = c5St.read_frame_count p)) :=
  ⟨(update_unread_amended baseSt).1 rfl rfl,
   (update_unread_amended c5St).2.2 rfl (by decide)⟩

/-- C2: with `block = true`, a run of iterations in which the frame-ready
guards pass, no input arrives, `select` succeeds, the unread frame count
stays at or below `self_frame_count` and no peer is pausing returns the
fatal error `-1` as soon as the stall counter reaches
`MAX_RETRIES = 16`; and whenever every iteration has `remote_paused` set
(and `select` succeeding), the loop never returns the fatal error, it
keeps waiting. -/
theorem poll_stall_fatal_unless_paused :
    (∀ (sfc tc : Nat) (evs : List PollEnv),
      (∀ e ∈ evs, e.frame_ready = true ∧ e.had_input = false ∧
        e.select_ok = true ∧ e.unread_after ≤ sfc ∧ e.remote_paused = false) →
      1 ≤ evs.length → MAX_RETRIES ≤ tc + evs.length →
      netplay_poll_net_input_block sfc tc evs = some (-1)) ∧
    (∀ (sfc tc : Nat) (evs : List PollEnv),
      (∀ e ∈ evs, e.remote_paused = true ∧ e.select_ok = true) →
      netplay_poll_net_input_block sfc tc evs ≠ some (-1)) := by
  constructor
  · intro sfc tc evs
    induction evs generalizing tc with
    | nil => intro _ h1 _; exact absurd h1 (by simp)
    | cons e rest ih =>
      intro hall h1 hlen
      obtain ⟨hfr, hhi, hsel, hun, hrp⟩ := hall e (List.mem_cons_self e rest)
      have hun' : ¬ (sfc < e.unread_after) := Nat.not_lt.mpr hun
      have hlen' : MAX_RETRIES ≤ tc + (rest.length + 1) := by simpa using hlen
      by_cases hfatal : MAX_RETRIES ≤ tc + 1
      · simp [netplay_poll_net_input_block, hfr, hhi, hsel, hun', hfatal, hrp]
      · have hrec := ih (tc + 1)
          (fun e' he' => hall e' (List.mem_cons_of_mem _ he'))
          (by unfold MAX_RETRIES at hfatal hlen'; omega)
          (by unfold MAX_RETRIES at hfatal hlen' ⊢; omega)
        simp [netplay_poll_net_input_block, hfr, hhi, hsel, hun', hfatal,
              hrp, hrec]
  · intro sfc tc evs
    induction evs generalizing tc with
    | nil => intro _; simp [netplay_poll_net_input_block]
    | cons e rest ih =>
      intro hall
      obtain ⟨hrp, hsel⟩ := hall e (List.mem_cons_self e rest)
      have ihr := fun tc' => ih tc'
        (fun e' he' => hall e' (List.mem_cons_of_mem _ he'))
      by_cases hfr : e.frame_ready = false
      · simp [netplay_poll_net_input_block, hfr]
      · by_cases hun : sfc < e.unread_after
        · simp [netplay_poll_net_input_block, hfr, hun]
        · by_cases hhi : e.had_input = false
          · simpa [netplay_poll_net_input_block, hfr, hun, hhi, hsel, hrp]
              using ihr _
          · simpa [netplay_poll_net_input_block, hfr, hun, hhi] using ihr _

/-- A stalled iteration: guards pass, no data, select succeeds, nobody
paused. -/
def stallEv : PollEnv := ⟨false, true, 0, false, true⟩

/-- An iteration during which some peer holds PAUSE. -/
def pausedEv : PollEnv := ⟨false, true, 0, true, true⟩

/-- Witness for C2: sixteen consecutive stalls from a zero counter are
fatal; twenty paused iterations are not. -/
theorem poll_stall_fatal_unless_paused_witness :
    netplay_poll_net_input_block 5 0 (List.replicate 16 stallEv)
      = some (-1) ∧
    netplay_poll_net_input_block 5 0 (List.replicate 20 pausedEv)
      ≠ some (-1) :=
  ⟨poll_stall_fatal_unless_paused.1 5 0 _
      (fun e he => by rw [List.eq_of_mem_replicate he]; exact
        ⟨rfl, rfl, rfl, by decide, rfl⟩)
      (by simp) (by simp [MAX_RETRIES]),
   poll_stall_fatal_unless_paused.2 5 0 _
      (fun e he => by rw [List.eq_of_mem_replicate he]; exact ⟨rfl, rfl⟩)⟩

/-- Frame slot for the C4 states: player 1's predicted word 0 is 16 (the
UP direction bit). -/
def c4Frame0 : DeltaFrame :=
  { emptyFrame with simulated_input_state := fun q =>
      if q = 1 then [16, 5, 6] else [0, 0, 0] }

/-- Previous frame slot for the C4 states: player 1's real word 0 is 1
(the B button bit). -/
def c4Frame1 : DeltaFrame :=
  { emptyFrame with real_input_state := fun q =>
      if q = 1 then [1, 0, 0] else [0, 0, 0] }

/-- Concrete state for C4: player 1 connected, simulating slot 0 whose
previous real slot (PREV_PTR of `read_ptr 1 = 2`, i.e. slot 1) is
`c4Frame1`. -/
def c4St : Netplay :=
  { baseSt with connected_players := 2, read_ptr := fun _ => 2,
                buffer := fun ix =>
                  if ix = 0 then c4Frame0
                  else if ix = 1 then c4Frame1 else emptyFrame }

/-- C4 counterexample: resimulating slot 0 of `c4St` for player 1 yields
word 0 = 17 — the direction bit 16 is *preserved from the simulated
state* and the button bit 1 is *copied from the previous real input* —
whereas the claim (directions copied from real, predicted buttons
preserved) predicts word 0
`= (real0 &&& KEEP_MASK) ||| (sim0 &&& ~KEEP_MASK) = 0`. -/
theorem simulate_resim_claim_cex :
    c4St.connected_players.testBit 1 = true ∧
    (c4St.buffer 0).have_real 1 = false ∧
    ((netplay_simulate_input c4St 0 true).buffer 0).simulated_input_state 1
      = [17, 5, 6] ∧
    ((netplay_simulate_input c4St 0 true).buffer 0).simulated_input_state 1
      ≠ [((c4Frame1.real_input_state 1).getD 0 0 &&& KEEP_MASK) |||
         ((c4Frame0.simulated_input_state 1).getD 0 0
           &&& (UINT32_MAX ^^^ KEEP_MASK)), 5, 6] := by
  refine ⟨rfl, rfl, ?_, ?_⟩ <;> decide

/-- C4 (amended): `netplay_simulate_input` fills, for every player `p`
below `MAX_USERS` in `connected_players` with `have_real[p]` false at the
simulated slot, `simulated_input_state[p]` as follows: on first
simulation (`resim = false`) it copies the full `WORDS_PER_INPUT`-word
previous `real_input_state[p]`; on resimulation it updates only word 0,
*keeping* the direction mask UP|DOWN|LEFT|RIGHT of the already-simulated
word 0 and copying the remaining (button) bits from the previous slot's
real word 0.  Other players' simulated input, the real inputs and
`have_real` flags of the slot, and every other slot are unchanged. -/
theorem simulate_input_amended (st : Netplay) (sp p q ix : Nat)
    (resim : Bool) :
    (p < MAX_USERS → st.connected_players.testBit p = true →
      (st.buffer sp).have_real p = false →
      (((netplay_simulate_input st sp false).buffer sp).simulated_input_state p
        = ((st.buffer (PREV_PTR st (st.read_ptr p))).real_input_state p).take
            WORDS_PER_INPUT) ∧
      (((netplay_simulate_input st sp true).buffer sp).simulated_input_state p
        = ((((st.buffer sp).simulated_input_state p).getD 0 0 &&& KEEP_MASK)
            ||| (((st.buffer (PREV_PTR st (st.read_ptr p))).real_input_state
                    p).getD 0 0 &&& (UINT32_MAX ^^^ KEEP_MASK)))
          :: ((st.buffer sp).simulated_input_state p).drop 1)) ∧
    (¬ (q < MAX_USERS ∧ st.connected_players.testBit q = true ∧
        (st.buffer sp).have_real q = false) →
      ((netplay_simulate_input st sp resim).buffer sp).simulated_input_state q
        = (st.buffer sp).simulated_input_state q) ∧
    (((netplay_simulate_input st sp resim).buffer sp).have_real
        = (st.buffer sp).have_real ∧
     ((netplay_simulate_input st sp resim).buffer sp).real_input_state
        = (st.buffer sp).real_input_state) ∧
    (ix ≠ sp → (netplay_simulate_input st sp resim).buffer ix
        = st.buffer ix) := by
  refine ⟨fun hp hc hr => ⟨?_, ?_⟩, fun hq => ?_, ⟨?_, ?_⟩, fun hix => ?_⟩
  · simp [netplay_simulate_input, simulate_player_words, hp, hc, hr]
  · simp [netplay_simulate_input, simulate_player_words, hp, hc, hr]
  · simp only [netplay_simulate_input]
    simp [hq]
  · simp [netplay_simulate_input]
  · simp [netplay_simulate_input]
  · simp [netplay_simulate_input, hix]

/-- Witness for C4 (amended) at `c4St`: first simulation copies
`[1, 0, 0]`; resimulation produces `[17, 5, 6]`; the unconnected player 0
and the unrelated slot 2 are untouched. -/
theorem simulate_input_amended_witness :
    ((netplay_simulate_input c4St 0 false).buffer 0).simulated_input_state 1
      = ((c4St.buffer (PREV_PTR c4St (c4St.read_ptr 1))).real_input_state
          1).take WORDS_PER_INPUT ∧
    ((netplay_simulate_input c4St 0 true).buffer 0).simulated_input_state 1
      = ((((c4St.buffer 0).simulated_input_state 1).getD 0 0 &&& KEEP_MASK)
          ||| (((c4St.buffer (PREV_PTR c4St (c4St.read_ptr 1))).real_input_state
                  1).getD 0 0 &&& (UINT32_MAX ^^^ KEEP_MASK)))
        :: ((c4St.buffer 0).simulated_input_state 1).drop 1 ∧
    ((netplay_simulate_input c4St 0 true).buffer 0).simulated_input_state 0
      = (c4St.buffer 0).simulated_input_state 0 ∧
    (netplay_simulate_input c4St 0 true).buffer 2 = c4St.buffer 2 :=
  ⟨((simulate_input_amended c4St 0 1 0 2 true).1 (by decide) rfl rfl).1,
   ((simulate_input_amended c4St 0 1 0 2 true).1 (by decide) rfl rfl).2,
   (simulate_input_amended c4St 0 1 0 2 true).2.1 (by decide),
   (simulate_input_amended c4St 0 1 0 2 true).2.2.2 (by decide)⟩

/-- C1: for a correctly-sized INPUT command whose resolved player `p` is
below `MAX_USERS` and in `connected_players` (and with the core able to
serialize, so the ring slot can be readied), exactly one of three
outcomes occurs by comparing the payload frame with
`read_frame_count[p]`: below it, the command is silently dropped with no
state change; above it, a NAK is sent and the connection reports failure
(the poll loop then disconnects it); at it, the input words are copied
into `real_input_state[p]` of the slot at `read_ptr[p]`, `have_real[p]`
becomes true, and `read_ptr[p]` and `read_frame_count[p]` advance by
one. -/
theorem input_cmd_three_outcomes (st : Netplay) (i : Nat)
    (payload : List Nat) (p : Nat)
    (hres : resolve_input_player st (st.connections.getD i default)
              (payload.getD 1 0) = some p)
    (hp : p < MAX_USERS)
    (hc : st.connected_players.testBit p = true)
    (hser : st.can_serialize = true) :
    (payload.getD 0 0 < st.read_frame_count p →
      handle_input st i (WORDS_PER_FRAME * 4) payload = ⟨st, true, []⟩) ∧
    (st.read_frame_count p < payload.getD 0 0 →
      handle_input st i (WORDS_PER_FRAME * 4) payload
        = ⟨st, false, [⟨i, .cNAK, []⟩]⟩) ∧
    (payload.getD 0 0 = st.read_frame_count p →
      (handle_input st i (WORDS_PER_FRAME * 4) payload).ret = true ∧
      ((handle_input st i (WORDS_PER_FRAME * 4) payload).st.buffer
          (st.read_ptr p)).real_input_state p
        = (payload.drop 2).take WORDS_PER_INPUT ∧
      ((handle_input st i (WORDS_PER_FRAME * 4) payload).st.buffer
          (st.read_ptr p)).have_real p = true ∧
      (handle_input st i (WORDS_PER_FRAME * 4) payload).st.read_ptr p
        = NEXT_PTR st (st.read_ptr p) ∧
      (handle_input st i (WORDS_PER_FRAME * 4) payload).st.read_frame_count p
        = st.read_frame_count p + 1) := by
  simp only [List.getD, List.get?_eq_getElem?] at hres
  refine ⟨fun hdup => ?_, fun hoo => ?_, fun heq => ?_⟩
  · simp only [List.getD, List.get?_eq_getElem?] at hdup
    simp [handle_input, List.getD, hres, Nat.not_le.mpr hp, hc, hdup]
  · simp only [List.getD, List.get?_eq_getElem?] at hoo
    simp [handle_input, List.getD, hres, Nat.not_le.mpr hp, hc, hoo,
          Nat.lt_asymm hoo, cmdNak]
  · simp only [List.getD, List.get?_eq_getElem?] at heq
    by_cases hready : ((st.buffer (st.read_ptr p)).used = true ∧
      (st.buffer (st.read_ptr p)).frame = st.read_frame_count p) <;>
    by_cases hsb : (st.is_server = false ∧
      (payload[1]?.getD 0) &&& NETPLAY_CMD_INPUT_BIT_SERVER ≠ 0) <;>
    simp [handle_input, List.getD, hres, Nat.not_le.mpr hp, hc, heq,
          netplay_delta_frame_ready, hready, hser, hsb, NEXT_PTR]

/-- Concrete server state for the C1/C7 witnesses: connection 0 plays as
player 2, whose next expected frame is 5. -/
def c1St : Netplay :=
  { baseSt with connected_players := 4,
                connections := [playConn 2],
                read_ptr := fun _ => 1, read_frame_count := fun _ => 5,
                self_frame_count := 6 }

/-- Witness for C1 at `c1St`: frame 3 is dropped, frame 9 is NAKed, and
frame 5 is accepted with the expected state updates. -/
theorem input_cmd_three_outcomes_witness :
    (handle_input c1St 0 (WORDS_PER_FRAME * 4) [3, 2, 11, 12, 13]
      = ⟨c1St, true, []⟩) ∧
    (handle_input c1St 0 (WORDS_PER_FRAME * 4) [9, 2, 11, 12, 13]
      = ⟨c1St, false, [⟨0, .cNAK, []⟩]⟩) ∧
    ((handle_input c1St 0 (WORDS_PER_FRAME * 4) [5, 2, 11, 12, 13]).ret
        = true ∧
     ((handle_input c1St 0 (WORDS_PER_FRAME * 4) [5, 2, 11, 12, 13]).st.buffer
        (c1St.read_ptr 2)).real_input_state 2
        = ([5, 2, 11, 12, 13].drop 2).take WORDS_PER_INPUT ∧
     ((handle_input c1St 0 (WORDS_PER_FRAME * 4) [5, 2, 11, 12, 13]).st.buffer
        (c1St.read_ptr 2)).have_real 2 = true ∧
     (handle_input c1St 0 (WORDS_PER_FRAME * 4) [5, 2, 11, 12, 13]).st.read_ptr
        2 = NEXT_PTR c1St (c1St.read_ptr 2) ∧
     (handle_input c1St 0 (WORDS_PER_FRAME * 4)
        [5, 2, 11, 12, 13]).st.read_frame_count 2
        = c1St.read_frame_count 2 + 1) :=
  ⟨(input_cmd_three_outcomes c1St 0 [3, 2, 11, 12, 13] 2 rfl (by decide)
      (by decide) rfl).1 (by decide),
   (input_cmd_three_outcomes c1St 0 [9, 2, 11, 12, 13] 2 rfl (by decide)
      (by decide) rfl).2.1 (by decide),
   (input_cmd_three_outcomes c1St 0 [5, 2, 11, 12, 13] 2 rfl (by decide)
      (by decide) rfl).2.2 (by decide)⟩

/-- C7: a duplicate INPUT command (payload frame strictly below
`read_frame_count[p]` for the resolved connected player `p`) is a
complete no-op: the session state (including every per-player pointer,
frame count, input array, and the server pointers) is returned exactly as
it was, the handler reports success (the connection stays connected), and
nothing is sent or relayed. -/
theorem duplicate_input_noop (st : Netplay) (i : Nat) (payload : List Nat)
    (p : Nat)
    (hres : resolve_input_player st (st.connections.getD i default)
              (payload.getD 1 0) = some p)
    (hp : p < MAX_USERS)
    (hc : st.connected_players.testBit p = true)
    (hdup : payload.getD 0 0 < st.read_frame_count p) :
    handle_input st i (WORDS_PER_FRAME * 4) payload = ⟨st, true, []⟩ := by
  simp only [List.getD, List.get?_eq_getElem?] at hres hdup
  simp [handle_input, List.getD, hres, Nat.not_le.mpr hp, hc, hdup]

/-- Witness for C7 at `c1St`: the duplicate frame 4 changes nothing. -/
theorem duplicate_input_noop_witness :
    (4 : Nat) < c1St.read_frame_count 2 ∧
    handle_input c1St 0 (WORDS_PER_FRAME * 4) [4, 2, 21, 22, 23]
      = ⟨c1St, true, []⟩ :=
  ⟨by decide,
   duplicate_input_noop c1St 0 [4, 2, 21, 22, 23] 2 rfl (by decide)
     (by decide) (by decide)⟩

/-- `List.set` does not change entries at other indices. -/
lemma getD_set_ne (l : List Conn) (i j : Nat) (a : Conn) (h : j ≠ i) :
    (l.set i a).getD j default = l.getD j default := by
  simp [List.getD, List.getElem?_set_ne (Ne.symm h)]

/-- Every active, at-least-CONNECTED connection other than the excluded
one receives a `send_raw_cmd_all` broadcast. -/
lemma mem_send_raw_cmd_all (conns : List Conn) (excl : Nat) (cmd : WireCmd)
    (payload : List Nat) (j : Nat) (hj : j < conns.length) (hne : j ≠ excl)
    (hact : (conns.getD j default).active = true)
    (hmode : CONNECTED_RANK ≤ connRank (conns.getD j default).mode) :
    (⟨j, cmd, payload⟩ : Send) ∈ send_raw_cmd_all conns excl cmd payload := by
  unfold send_raw_cmd_all
  refine List.mem_map.mpr ⟨j, ?_, rfl⟩
  refine List.mem_filter.mpr ⟨List.mem_range.mpr hj, ?_⟩
  simp only [List.getD, List.get?_eq_getElem?] at hact hmode
  simp [hne, hact, hmode]

/-- Concrete server state for C6: connection 0 plays as player 2 with
`read_frame_count 7`; connection 1 is a spectator. -/
def c6St : Netplay :=
  { baseSt with connections := [playConn 2, specConn],
                connected_players := 4,
                read_frame_count := fun _ => 7 }

/-- C6 counterexample: when a PLAYING sender issues SPECTATE, the MODE
reply sent to that sender carries frame word `read_frame_count[p] = 7`,
not always 0 as the claim states — the C code reuses `payload[0]` from
the demotion broadcast. -/
theorem spectate_frame_word_cex :
    (c6St.connections.getD 0 default).mode = ConnMode.mPLAYING ∧
    (handle_spectate c6St 0).sends.getLastD default
      = ⟨0, .cMODE, [7, NETPLAY_CMD_MODE_BIT_YOU ||| 2]⟩ ∧
    ((handle_spectate c6St 0).sends.getLastD default).payload.getD 0 0
      ≠ 0 := by
  refine ⟨rfl, ?_, ?_⟩ <;> decide

/-- C6 (amended): on the server, a SPECTATE command from a PLAYING sender
demotes it to SPECTATING, removes its bit from `connected_players`,
broadcasts `MODE(read_frame_count[p], p)` to every other active connected
connection, and replies to the sender with
`MODE(read_frame_count[p], MODE_BIT_YOU|p)` — frame word 0 is used in the
sender reply only when the sender was not PLAYING, in which case nothing
else changes. -/
theorem spectate_cmd_amended (st : Netplay) (i : Nat)
    (hs : st.is_server = true) :
    ((st.connections.getD i default).mode = ConnMode.mPLAYING →
      (handle_spectate st i).ret = true ∧
      (handle_spectate st i).st.connected_players
        = clearBit st.connected_players
            (st.connections.getD i default).player ∧
      ((handle_spectate st i).st.connections.getD i default).mode
        = ConnMode.mSPECTATING ∧
      (handle_spectate st i).sends.getLastD default
        = ⟨i, .cMODE,
            [st.read_frame_count (st.connections.getD i default).player,
             NETPLAY_CMD_MODE_BIT_YOU
               ||| (st.connections.getD i default).player]⟩ ∧
      (∀ j, j < st.connections.length → j ≠ i →
        (st.connections.getD j default).active = true →
        CONNECTED_RANK ≤ connRank (st.connections.getD j default).mode →
        (⟨j, .cMODE,
           [st.read_frame_count (st.connections.getD i default).player,
            (st.connections.getD i default).player]⟩ : Send)
          ∈ (handle_spectate st i).sends)) ∧
    ((st.connections.getD i default).mode ≠ ConnMode.mPLAYING →
      handle_spectate st i
        = ⟨st, true, [⟨i, .cMODE,
            [0, NETPLAY_CMD_MODE_BIT_YOU
                  ||| (st.connections.getD i default).player]⟩]⟩) := by
  refine ⟨fun hplay => ?_, fun hnot => ?_⟩
  · have hi : i < st.connections.length := by
      by_contra hge
      rw [List.getD_eq_default _ _ (Nat.le_of_not_lt hge)] at hplay
      exact absurd hplay (by decide)
    unfold handle_spectate
    rw [if_neg (by simp [hs]), if_pos hplay]
    dsimp only
    refine ⟨rfl, rfl, ?_, ?_, ?_⟩
    · simp [List.getD, List.getElem?_set_eq_of_lt _ hi]
    · simp
    · intro j hj hne hact hmode
      refine List.mem_append.mpr (Or.inl ?_)
      refine mem_send_raw_cmd_all _ _ _ _ j ?_ hne ?_ ?_
      · simpa using hj
      · rw [getD_set_ne _ _ _ _ hne]; exact hact
      · rw [getD_set_ne _ _ _ _ hne]; exact hmode
  · unfold handle_spectate
    rw [if_neg (by simp [hs]), if_neg hnot]

/-- Witness for C6 (amended) at `c6St`: demoting the playing connection 0
and replying to the spectating connection 1. -/
theorem spectate_cmd_amended_witness :
    (handle_spectate c6St 0).ret = true ∧
    (handle_spectate c6St 0).st.connected_players
      = clearBit c6St.connected_players 2 ∧
    ((handle_spectate c6St 0).st.connections.getD 0 default).mode
      = ConnMode.mSPECTATING ∧
    (⟨1, .cMODE, [7, 2]⟩ : Send) ∈ (handle_spectate c6St 0).sends ∧
    handle_spectate c6St 1
      = ⟨c6St, true,
          [⟨1, .cMODE, [0, NETPLAY_CMD_MODE_BIT_YOU ||| 0]⟩]⟩ :=
  ⟨((spectate_cmd_amended c6St 0 rfl).1 rfl).1,
   ((spectate_cmd_amended c6St 0 rfl).1 rfl).2.1,
   ((spectate_cmd_amended c6St 0 rfl).1 rfl).2.2.1,
   ((spectate_cmd_amended c6St 0 rfl).1 rfl).2.2.2.2 1 (by decide)
     (by decide) (by decide) (by decide),
   (spectate_cmd_amended c6St 1 rfl).2 (by decide)⟩

/-- C8: `netplay_hangup` on an active connection closes its socket, marks
it inactive and frees its packet buffers; a client then drops
`self_mode` to NONE and clears `connected_players` (no transmissions, the
session object survives); a server whose hung-up peer was PLAYING clears
that player's bit and broadcasts `MODE(read_frame_count[player], player)`
to every remaining active connected connection.  On an inactive
connection it changes nothing. -/
theorem hangup_behavior (st : Netplay) (i : Nat) :
    ((st.connections.getD i default).active = false →
      netplay_hangup st i = (st, [])) ∧
    ((st.connections.getD i default).active = true →
      (((netplay_hangup st i).1.connections.getD i default).active = false ∧
       ((netplay_hangup st i).1.connections.getD i default).fd_open = false ∧
       ((netplay_hangup st i).1.connections.getD i default).send_buf_alloc
         = false ∧
       ((netplay_hangup st i).1.connections.getD i default).recv_buf_alloc
         = false) ∧
      (st.is_server = false →
        (netplay_hangup st i).1.self_mode = ConnMode.mNONE ∧
        (netplay_hangup st i).1.connected_players = 0 ∧
        (netplay_hangup st i).2 = []) ∧
      (st.is_server = true →
        (st.connections.getD i default).mode = ConnMode.mPLAYING →
        (netplay_hangup st i).1.connected_players
          = clearBit st.connected_players
              (st.connections.getD i default).player ∧
        (∀ j, j < st.connections.length → j ≠ i →
          (st.connections.getD j default).active = true →
          CONNECTED_RANK ≤ connRank (st.connections.getD j default).mode →
          (⟨j, .cMODE,
             [st.read_frame_count (st.connections.getD i default).player,
              (st.connections.getD i default).player]⟩ : Send)
            ∈ (netplay_hangup st i).2))) := by
  refine ⟨fun hin => ?_, fun hact => ?_⟩
  · unfold netplay_hangup
    rw [if_pos hin]
  · have hi : i < st.connections.length := by
      by_contra hge
      rw [List.getD_eq_default _ _ (Nat.le_of_not_lt hge)] at hact
      exact absurd hact (by decide)
    refine ⟨?_, fun hcl => ?_, fun hsrv hplay => ?_⟩
    · unfold netplay_hangup
      rw [if_neg (by rw [hact]; decide)]
      dsimp only
      split
      · simp [List.getD, List.getElem?_set_eq_of_lt _ hi]
      · split <;> simp [List.getD, List.getElem?_set_eq_of_lt _ hi]
    · unfold netplay_hangup
      rw [if_neg (by rw [hact]; decide)]
      dsimp only
      rw [if_pos hcl]
      exact ⟨rfl, rfl, rfl⟩
    · unfold netplay_hangup
      rw [if_neg (by rw [hact]; decide)]
      dsimp only
      rw [if_neg (by simp [hsrv]), if_pos hplay]
      refine ⟨rfl, fun j hj hne hact' hmode => ?_⟩
      refine mem_send_raw_cmd_all _ _ _ _ j ?_ hne ?_ ?_
      · simpa using hj
      · rw [getD_set_ne _ _ _ _ hne]; exact hact'
      · rw [getD_set_ne _ _ _ _ hne]; exact hmode

/-- Concrete client state for the C8 witness. -/
def c8St : Netplay :=
  { baseSt with is_server := false, connected_players := 3,
                self_mode := .mSPECTATING, connections := [playConn 0] }

/-- Witness for C8: hanging up the client's active server connection
deactivates it, frees its buffers and resets the session; hanging up the
server connection 0 of `c6St` (playing as player 2) broadcasts the
demotion to connection 1; an inactive connection is untouched. -/
theorem hangup_behavior_witness :
    (((netplay_hangup c8St 0).1.connections.getD 0 default).active = false ∧
     ((netplay_hangup c8St 0).1.connections.getD 0 default).fd_open = false ∧
     ((netplay_hangup c8St 0).1.connections.getD 0 default).send_buf_alloc
       = false ∧
     ((netplay_hangup c8St 0).1.connections.getD 0 default).recv_buf_alloc
       = false) ∧
    ((netplay_hangup c8St 0).1.self_mode = ConnMode.mNONE ∧
     (netplay_hangup c8St 0).1.connected_players = 0 ∧
     (netplay_hangup c8St 0).2 = []) ∧
    ((netplay_hangup c6St 0).1.connected_players
       = clearBit c6St.connected_players 2 ∧
     (⟨1, .cMODE, [7, 2]⟩ : Send) ∈ (netplay_hangup c6St 0).2) ∧
    netplay_hangup c10St 0 = (c10St, []) :=
  ⟨((hangup_behavior c8St 0).2 rfl).1,
   ((hangup_behavior c8St 0).2 rfl).2.1 rfl,
   ⟨(((hangup_behavior c6St 0).2 rfl).2.2 rfl rfl).1,
    (((hangup_behavior c6St 0).2 rfl).2.2 rfl rfl).2 1 (by decide) (by decide)
      (by decide) (by decide)⟩,
   (hangup_behavior c10St 0).1 rfl⟩

/-- C3: a LOAD_SAVESTATE command (from a session without the
INITIALIZATION quirk) is NAKed — disconnecting the sender — unless the
sender is PLAYING, the payload frame equals
`read_frame_count[conn.player]`, the declared uncompressed size equals
`state_size`, and `payload_size − 8` is at most `zbuffer_size`; when
accepted, the payload is decompressed into the state of the slot at
`read_ptr[conn.player]`, `self_ptr`/`self_frame_count` are snapped to
`prev_ptr` of that slot and `frame − 1` exactly when
`frame > self_frame_count`, every connected player whose
`read_frame_count` is below `frame` is aligned to the sender's read
pointer and `frame`, and `other_ptr`/`other_frame_count` are set to that
slot and `frame` with `force_rewind` set. -/
theorem load_savestate_accept_conditions (st : Netplay) (i cs f isz : Nat)
    (zp : List Nat) (coreRun : CoreStep)
    (hq : st.quirk_initialization = false) :
    (¬ ((st.connections.getD i default).mode = ConnMode.mPLAYING ∧
        f = st.read_frame_count (st.connections.getD i default).player ∧
        isz = st.state_size ∧ cs - 2 * 4 ≤ st.zbuffer_size) →
      handle_load_savestate coreRun st i cs f isz zp
        = ⟨st, false, [⟨i, .cNAK, []⟩]⟩) ∧
    ((st.connections.getD i default).mode = ConnMode.mPLAYING →
     f = st.read_frame_count (st.connections.getD i default).player →
     isz = st.state_size → cs - 2 * 4 ≤ st.zbuffer_size →
      (handle_load_savestate coreRun st i cs f isz zp).ret = true ∧
      ((handle_load_savestate coreRun st i cs f isz zp).st.buffer
          (st.read_ptr (st.connections.getD i default).player)).state
        = st.decompress zp ∧
      (st.self_frame_count < f →
        (handle_load_savestate coreRun st i cs f isz zp).st.self_ptr
          = PREV_PTR st (st.read_ptr (st.connections.getD i default).player) ∧
        (handle_load_savestate coreRun st i cs f isz zp).st.self_frame_count
          = f - 1) ∧
      (f ≤ st.self_frame_count →
        (handle_load_savestate coreRun st i cs f isz zp).st.self_ptr = st.self_ptr ∧
        (handle_load_savestate coreRun st i cs f isz zp).st.self_frame_count
          = st.self_frame_count) ∧
      (∀ q, st.connected_players.testBit q = true →
        st.read_frame_count q < f →
        (handle_load_savestate coreRun st i cs f isz zp).st.read_ptr q
          = st.read_ptr (st.connections.getD i default).player ∧
        (handle_load_savestate coreRun st i cs f isz zp).st.read_frame_count q
          = f) ∧
      (∀ q, ¬ (st.connected_players.testBit q = true ∧
               st.read_frame_count q < f) →
        (handle_load_savestate coreRun st i cs f isz zp).st.read_ptr q
          = st.read_ptr q ∧
        (handle_load_savestate coreRun st i cs f isz zp).st.read_frame_count q
          = st.read_frame_count q) ∧
      (handle_load_savestate coreRun st i cs f isz zp).st.other_ptr
        = st.read_ptr (st.connections.getD i default).player ∧
      (handle_load_savestate coreRun st i cs f isz zp).st.other_frame_count = f ∧
      (handle_load_savestate coreRun st i cs f isz zp).st.force_rewind = true) := by
  have hinit : load_savestate_init coreRun st = st := by
    unfold load_savestate_init
    rw [if_neg (by simp [hq])]
  constructor
  · intro hnot
    unfold handle_load_savestate
    rw [hinit]
    dsimp only
    by_cases h1 : (st.connections.getD i default).mode = ConnMode.mPLAYING
    · rw [if_neg (not_not_intro h1)]
      by_cases h2 : st.zbuffer_size + 2 * 4 < cs
      · rw [if_pos h2]; rfl
      · rw [if_neg h2]
        by_cases h3 : f = st.read_frame_count
            (st.connections.getD i default).player
        · rw [if_neg (not_not_intro h3)]
          by_cases h4 : isz = st.state_size
          · exact absurd ⟨h1, h3, h4, by omega⟩ hnot
          · rw [if_pos h4]; rfl
        · rw [if_pos h3]; rfl
    · rw [if_pos h1]; rfl
  · intro h1 h3 h4 h5
    have h2 : ¬ (st.zbuffer_size + 2 * 4 < cs) := by omega
    unfold handle_load_savestate
    rw [hinit]
    dsimp only
    rw [if_neg (not_not_intro h1), if_neg h2, if_neg (not_not_intro h3),
        if_neg (not_not_intro h4)]
    dsimp only
    refine ⟨rfl, ?_, fun hsf => ?_, fun hle => ?_,
            fun q hq1 hq2 => ?_, fun q hq12 => ?_, rfl, rfl, rfl⟩
    · by_cases hsf : st.self_frame_count < f <;> simp [hsf]
    · simp [hsf]
    · simp [Nat.not_lt.mpr hle]
    · simp [hq1, hq2]
    · simp [hq12]

/-- Concrete server state for the C3 witness: connection 0 plays as
player 1 (`read_frame_count 8`, `read_ptr 2`); player 2 lags at frame 5;
`self_frame_count = 6`, `state_size = 4`, `zbuffer_size = 8`. -/
def c3St : Netplay :=
  { baseSt with connections := [playConn 1, playConn 2],
                connected_players := 6,
                read_frame_count := fun q => if q = 1 then 8 else 5,
                read_ptr := fun q => if q = 1 then 2 else 0,
                self_frame_count := 6,
                decompress := fun l => 0 :: l }

/-- Witness for C3 at `c3St`: a well-formed LOAD_SAVESTATE of frame 8
(payload size 9, declared size 4) is accepted with the claimed updates;
one with a wrong declared size is NAKed. -/
theorem load_savestate_accept_conditions_witness :
    ((handle_load_savestate (fun c => c) c3St 0 9 8 4 [3]).ret = true ∧
     ((handle_load_savestate (fun c => c) c3St 0 9 8 4 [3]).st.buffer
        (c3St.read_ptr 1)).state = c3St.decompress [3] ∧
     ((handle_load_savestate (fun c => c) c3St 0 9 8 4 [3]).st.self_ptr
        = PREV_PTR c3St (c3St.read_ptr 1) ∧
      (handle_load_savestate (fun c => c) c3St 0 9 8 4 [3]).st.self_frame_count = 7) ∧
     ((handle_load_savestate (fun c => c) c3St 0 9 8 4 [3]).st.read_ptr 2
        = c3St.read_ptr 1 ∧
      (handle_load_savestate (fun c => c) c3St 0 9 8 4 [3]).st.read_frame_count 2 = 8) ∧
     (handle_load_savestate (fun c => c) c3St 0 9 8 4 [3]).st.other_ptr
        = c3St.read_ptr 1 ∧
     (handle_load_savestate (fun c => c) c3St 0 9 8 4 [3]).st.other_frame_count = 8 ∧
     (handle_load_savestate (fun c => c) c3St 0 9 8 4 [3]).st.force_rewind = true) ∧
    handle_load_savestate (fun c => c) c3St 0 9 8 99 [3]
      = ⟨c3St, false, [⟨0, .cNAK, []⟩]⟩ :=
  ⟨⟨((load_savestate_accept_conditions c3St 0 9 8 4 [3] (fun c => c) rfl).2 rfl rfl rfl
      (by decide)).1,
    ((load_savestate_accept_conditions c3St 0 9 8 4 [3] (fun c => c) rfl).2 rfl rfl rfl
      (by decide)).2.1,
    by
      have h := ((load_savestate_accept_conditions c3St 0 9 8 4 [3] (fun c => c) rfl).2
        rfl rfl rfl (by decide)).2.2.1 (by decide)
      exact h,
    ((load_savestate_accept_conditions c3St 0 9 8 4 [3] (fun c => c) rfl).2 rfl rfl rfl
      (by decide)).2.2.2.2.1 2 (by decide) (by decide),
    ((load_savestate_accept_conditions c3St 0 9 8 4 [3] (fun c => c) rfl).2 rfl rfl rfl
      (by decide)).2.2.2.2.2.2.1,
    ((load_savestate_accept_conditions c3St 0 9 8 4 [3] (fun c => c) rfl).2 rfl rfl rfl
      (by decide)).2.2.2.2.2.2.2.1,
    ((load_savestate_accept_conditions c3St 0 9 8 4 [3] (fun c => c) rfl).2 rfl rfl rfl
      (by decide)).2.2.2.2.2.2.2.2⟩,
   (load_savestate_accept_conditions c3St 0 9 8 99 [3] (fun c => c) rfl).1
     (by rintro ⟨-, -, h, -⟩; exact absurd h (by decide))⟩
